import Mathlib

/-!
Shallow embedding of `src/utils_tmp.py` (class `CIFAR10`): the CIFAR-10
loading utility.  Raw pickled batches are modelled by a `Disk` oracle mapping
file paths to deserialized records; numpy arrays of bytes become `List Nat`,
label arrays become `List Int`, float matrices become `List (List ℚ)`, and the
4-dimensional image tensor becomes a structure carrying its shape together
with a total indexing function.
-/

namespace CIFAR10

/-- Python exception kinds that the modelled code can raise.  The spec's
abstract names map onto these: `IOError` is `ioError`, `FormatError` is
`keyError`, `ShapeError` is `valueError` (numpy reshape size mismatch), and
`RangeError` is `indexError` (numpy fancy-index out of bounds). -/
inductive PyError where
  | ioError
  | keyError
  | valueError
  | indexError
  | nameError
  deriving DecidableEq, Repr

/-- One deserialized batch file: the record produced by `pickle.load`, with
the `data` field (flat unsigned-byte buffer, row-major as numpy stores it)
and the `labels` field (integer class numbers). -/
structure RawBatch where
  data : List Nat
  labels : List Int
  deriving DecidableEq, Repr

/-- The filesystem/pickle oracle: what `open` + `pickle.load` yields for each
full path (`Except.error` models a missing/unreadable or malformed file). -/
def Disk : Type := String → Except PyError RawBatch

/-- `self.data_path` from `__init__`. -/
def data_path : String := "/data/put_data/cmchang/"

/-- `self.base_folder` from `__init__`. -/
def base_folder : String := "cifar-10-batches-py/"

/-- `self.img_size` from `__init__`. -/
def img_size : Nat := 32

/-- `self.num_channels` from `__init__`. -/
def num_channels : Nat := 3

/-- `self.img_size_flat = img_size * img_size * num_channels`. -/
def img_size_flat : Nat := img_size * img_size * num_channels

/-- `self.num_classes` from `__init__`. -/
def num_classes : Nat := 10

/-- The 4-dimensional numpy image array: shape `[n, h, w, c]` plus a total
indexing function (indices outside the shape are modelled as `0`, since the
source only ever reads in-bounds positions). -/
structure Tensor4 where
  n : Nat
  h : Nat
  w : Nat
  c : Nat
  pix : Nat → Nat → Nat → Nat → ℚ

/-- Row `j` of `np.eye(n, dtype=float)`: `1.0` at column `j`, `0.0` elsewhere. -/
def npEyeRow (n : Nat) (j : Nat) : List ℚ :=
  (List.range n).map (fun k => if k = j then 1 else 0)

/-- Numpy index normalisation for an axis of length `n`: a negative index `v`
counts from the end (`n + v`). Callers must separately check validity. -/
def npWrap (n : Nat) (v : Int) : Nat :=
  if v < 0 then (v + n).toNat else v.toNat

/-- Numpy fancy indexing `np.eye(n)[class_numbers]`: each index must satisfy
`-n ≤ v < n` (negative values wrap), otherwise `IndexError` is raised. -/
def npEyeTake (n : Nat) : List Int → Except PyError (List (List ℚ))
  | [] => Except.ok []
  | v :: vs =>
    if -(n : Int) ≤ v ∧ v < (n : Int) then do
      let rest ← npEyeTake n vs
      Except.ok (npEyeRow n (npWrap n v) :: rest)
    else Except.error PyError.indexError

/-- `CIFAR10._one_hot_encoded` (lines 70-89): when `num_classes` is `none` it
is inferred as `np.max(class_numbers) + 1` (`np.max` raises `ValueError` on an
empty array, and `np.eye` raises `ValueError` on a negative dimension); the
result is `np.eye(num_classes, dtype=float)[class_numbers]`. -/
def _one_hot_encoded (class_numbers : List Int) (nc? : Option Nat) :
    Except PyError (List (List ℚ)) := do
  let nc ←
    match nc? with
    | some nc => Except.ok nc
    | none =>
      match class_numbers.max? with
      | some m =>
        if m + 1 < 0 then Except.error PyError.valueError
        else Except.ok (m + 1).toNat
      | none => Except.error PyError.valueError
  npEyeTake nc class_numbers

/-- `CIFAR10._convert_images` (lines 114-130): divide the byte buffer by
`255.0`, reshape to `[-1, num_channels, img_size, img_size]` (numpy raises
`ValueError` when the length is not a multiple of the product of the given
dimensions), then transpose axes `[0, 2, 3, 1]`.  The element at output index
`[i, r, col, ch]` is therefore the flat byte at
`((i * num_channels + ch) * img_size + r) * img_size + col`, normalised. -/
def _convert_images (raw : List Nat) : Except PyError Tensor4 :=
  if num_channels * img_size * img_size ∣ raw.length then
    Except.ok
      { n := raw.length / (num_channels * img_size * img_size)
        h := img_size
        w := img_size
        c := num_channels
        pix := fun i r col ch =>
          ((raw.getD (((i * num_channels + ch) * img_size + r) * img_size + col) 0 : ℚ)) / 255 }
  else Except.error PyError.valueError

/-- `CIFAR10._unpickle` (lines 94-111): open and unpickle
`os.path.join(self.data_path, self.base_folder, filename)`; both directory
components end in a slash, so the join is plain concatenation. -/
def _unpickle (disk : Disk) (filename : String) : Except PyError RawBatch :=
  disk (data_path ++ base_folder ++ filename)

/-- `CIFAR10._load_data` (lines 133-152): unpickle the file, take its
`data` and `labels` fields, and convert the raw images. -/
def _load_data (disk : Disk) (filename : String) :
    Except PyError (Tensor4 × List Int) := do
  let record ← _unpickle disk filename
  let images ← _convert_images record.data
  Except.ok (images, record.labels)

/-- `CIFAR10.load_class_names` (lines 158-172).  Line 167 reads
`raw = _unpickle(filename="batches.meta")[b'label_names']`: the bare name
`_unpickle` is looked up in the enclosing module's globals (methods are not in
scope without `self.`), no module-level `_unpickle` exists, so the call raises
`NameError` before touching any file. -/
def load_class_names (_disk : Disk) : Except PyError (List String) :=
  Except.error PyError.nameError

/-- `_num_files_train` local of `load_training_data` (line 184). -/
def _num_files_train : Nat := 5

/-- `_images_per_file` local of `load_training_data` (line 187). -/
def _images_per_file : Nat := 10000

/-- `_num_images_train` local of `load_training_data` (line 191). -/
def _num_images_train : Nat := _num_files_train * _images_per_file

/-- Length of the numpy basic slice `arr[b:e]` on a first axis of length `n`:
slice bounds clip to the array's size. -/
def npSliceLen (n b e : Nat) : Nat := min e n - min b n

/-- The pure effect of an exact (non-broadcast) slice assignment
`arr[b:e, :] = batch` on the first axis: positions in `[b, min e arr.n)`
read from `batch`, all others are unchanged. -/
def writeSliceUpd (arr : Tensor4) (b e : Nat) (batch : Tensor4) : Tensor4 :=
  { arr with
    pix := fun i r col ch =>
      if b ≤ i ∧ i < min e arr.n then batch.pix (i - b) r col ch
      else arr.pix i r col ch }

/-- The pure effect of a broadcast slice assignment: a single-image batch is
copied to every position of the slice. -/
def writeSliceBcast (arr : Tensor4) (b e : Nat) (batch : Tensor4) : Tensor4 :=
  { arr with
    pix := fun i r col ch =>
      if b ≤ i ∧ i < min e arr.n then batch.pix 0 r col ch
      else arr.pix i r col ch }

/-- The slice assignment `images[begin:end, :] = images_batch` (line 213):
numpy clips the slice to the array bound and then requires the batch's first
dimension to equal the clipped slice length, or to be 1 (broadcast); any
other size raises a broadcast `ValueError`.  The trailing axes are
`(img_size, img_size, num_channels)` on both sides everywhere in this
program, so only the first axis can mismatch. -/
def writeSlice (arr : Tensor4) (b e : Nat) (batch : Tensor4) :
    Except PyError Tensor4 :=
  if batch.n = npSliceLen arr.n b e then Except.ok (writeSliceUpd arr b e batch)
  else if batch.n = 1 then Except.ok (writeSliceBcast arr b e batch)
  else Except.error PyError.valueError

/-- The pure effect of an exact slice assignment `cls[b:e] = batch` on the
label vector: the clipped positions `[min b len, min e len)` are replaced. -/
def setSliceUpd (l : List Int) (b e : Nat) (batch : List Int) : List Int :=
  l.take (min b l.length) ++ batch ++ l.drop (min e l.length)

/-- The slice assignment `cls[begin:end] = cls_batch` (line 216): numpy clips
the slice and requires the batch length to equal the clipped slice length, or
to be 1 (broadcast); any other size raises a broadcast `ValueError`. -/
def setSlice (l : List Int) (b e : Nat) (batch : List Int) :
    Except PyError (List Int) :=
  if batch.length = npSliceLen l.length b e then Except.ok (setSliceUpd l b e batch)
  else if batch.length = 1 then
    Except.ok (setSliceUpd l b e (List.replicate (npSliceLen l.length b e) (batch.getD 0 0)))
  else Except.error PyError.valueError

/-- The training batch file name `"data_batch_" + str(i + 1)` (line 204). -/
def train_filename (i : Nat) : String := "data_batch_" ++ toString (i + 1)

/-- The `for i in range(_num_files_train)` loop of `load_training_data`
(lines 202-219), carried state = (images array, cls array, begin index):
load batch `i`, set `num_images = len(images_batch)` and
`end = begin + num_images`, assign the image and class-number slices
`[begin, end)` (either assignment can raise a broadcast `ValueError` when
the batch does not fit), then advance `begin` to `end`. -/
def trainLoop (disk : Disk) :
    List Nat → Tensor4 → List Int → Nat → Except PyError (Tensor4 × List Int)
  | [], images, cls, _ => Except.ok (images, cls)
  | i :: rest, images, cls, b => do
    let (images_batch, cls_batch) ← _load_data disk (train_filename i)
    let e := b + images_batch.n
    let images2 ← writeSlice images b e images_batch
    let cls2 ← setSlice cls b e cls_batch
    trainLoop disk rest images2 cls2 e

/-- `CIFAR10.load_training_data` (lines 175-221): pre-allocate a zero image
array of shape `[50000, 32, 32, 3]` and a zero class vector of length 50000,
fill them batch by batch, then return the pair
`(images, _one_hot_encoded(cls, num_classes))` — note the source returns only
this 2-tuple, the class-number vector itself is not returned. -/
def load_training_data (disk : Disk) :
    Except PyError (Tensor4 × List (List ℚ)) := do
  let images0 : Tensor4 :=
    { n := _num_images_train, h := img_size, w := img_size, c := num_channels
      pix := fun _ _ _ _ => 0 }
  let cls0 : List Int := List.replicate _num_images_train 0
  let (images, cls) ← trainLoop disk (List.range _num_files_train) images0 cls0 0
  let one_hot ← _one_hot_encoded cls (some num_classes)
  Except.ok (images, one_hot)

/-- `CIFAR10.load_test_data` (lines 224-233): load the single `"test_batch"`
file and return `(images, _one_hot_encoded(cls, num_classes))` — again only a
2-tuple, without the class-number vector. -/
def load_test_data (disk : Disk) :
    Except PyError (Tensor4 × List (List ℚ)) := do
  let (images, cls) ← _load_data disk "test_batch"
  let one_hot ← _one_hot_encoded cls (some num_classes)
  Except.ok (images, one_hot)

/-! ### Helper lemmas -/

theorem except_bind_ok {ε α β : Type} (a : α) (f : α → Except ε β) :
    (Except.ok a >>= f : Except ε β) = f a := rfl

theorem except_bind_err {ε α β : Type} (e : ε) (f : α → Except ε β) :
    ((Except.error e : Except ε α) >>= f : Except ε β) = Except.error e := rfl

theorem getD_of_lt {α : Type} (l : List α) (i : Nat) (d : α) (hi : i < l.length) :
    l.getD i d = l.get ⟨i, hi⟩ := by
  simp [List.getD_eq_getElem?_getD, List.getElem?_eq_getElem hi]

theorem getD_mem_of_lt {α : Type} (l : List α) (i : Nat) (d : α) (hi : i < l.length) :
    l.getD i d ∈ l := by
  rw [getD_of_lt l i d hi]
  exact List.get_mem l i hi

theorem map_getD {α β : Type} (f : α → β) (l : List α) (i : Nat)
    (hi : i < l.length) (db : β) (da : α) :
    (l.map f).getD i db = f (l.getD i da) := by
  simp [List.getD_eq_getElem?_getD, List.getElem?_map, List.getElem?_eq_getElem hi]

theorem npEyeRow_length (n j : Nat) : (npEyeRow n j).length = n := by
  simp [npEyeRow]

theorem npEyeRow_getD (n j k : Nat) (hk : k < n) :
    (npEyeRow n j).getD k 0 = if k = j then 1 else 0 := by
  simp [npEyeRow, List.getD_eq_getElem?_getD, List.getElem?_map, List.getElem?_range hk]

theorem one_hot_encoded_some (labels : List Int) (nc : Nat) :
    _one_hot_encoded labels (some nc) = npEyeTake nc labels := rfl

theorem npEyeTake_ok (n : Nat) (labels : List Int)
    (h : ∀ v ∈ labels, -(n : Int) ≤ v ∧ v < (n : Int)) :
    npEyeTake n labels = Except.ok (labels.map (fun v => npEyeRow n (npWrap n v))) := by
  induction labels with
  | nil => rfl
  | cons v vs ih =>
    have hv := h v (List.mem_cons_self v vs)
    have hrest : ∀ w ∈ vs, -(n : Int) ≤ w ∧ w < (n : Int) :=
      fun w hw => h w (List.mem_cons_of_mem v hw)
    simp [npEyeTake, hv.1, hv.2, ih hrest, except_bind_ok]

theorem npEyeTake_err (n : Nat) (labels : List Int)
    (h : ∃ v ∈ labels, ¬(-(n : Int) ≤ v ∧ v < (n : Int))) :
    npEyeTake n labels = Except.error PyError.indexError := by
  induction labels with
  | nil => simp at h
  | cons v vs ih =>
    obtain ⟨w, hw, hbad⟩ := h
    rcases List.mem_cons.mp hw with rfl | hw2
    · by_cases hv : -(n : Int) ≤ w ∧ w < (n : Int)
      · exact absurd hv hbad
      · simp [npEyeTake, hv]
    · by_cases hv : -(n : Int) ≤ v ∧ v < (n : Int)
      · simp [npEyeTake, hv, ih ⟨w, hw2, hbad⟩, except_bind_err]
      · simp [npEyeTake, hv]

theorem foldl_max_spec (l : List Int) :
    ∀ a : Int, a ≤ l.foldl max a ∧ (∀ b ∈ l, b ≤ l.foldl max a) ∧
      (l.foldl max a = a ∨ l.foldl max a ∈ l) := by
  induction l with
  | nil => intro a; simp
  | cons x xs ih =>
    intro a
    obtain ⟨h1, h2, h3⟩ := ih (max a x)
    refine ⟨le_trans (le_max_left a x) h1, ?_, ?_⟩
    · intro b hb
      rcases List.mem_cons.mp hb with rfl | hb2
      · exact le_trans (le_max_right a b) h1
      · exact h2 b hb2
    · rw [List.foldl_cons]
      rcases h3 with h | h
      · rw [h]
        rcases max_choice a x with hm | hm
        · left; exact hm
        · right; rw [hm]; exact List.mem_cons_self x xs
      · right; exact List.mem_cons_of_mem x h

theorem max?_spec (l : List Int) (m : Int) (h : l.max? = some m) :
    m ∈ l ∧ ∀ b ∈ l, b ≤ m := by
  cases l with
  | nil => simp [List.max?] at h
  | cons x xs =>
    have hx : (x :: xs).max? = some (xs.foldl max x) := rfl
    rw [hx, Option.some_inj] at h
    obtain ⟨h1, h2, h3⟩ := foldl_max_spec xs x
    subst h
    refine ⟨?_, ?_⟩
    · rcases h3 with h | h
      · rw [h]; exact List.mem_cons_self x xs
      · exact List.mem_cons_of_mem x h
    · intro b hb
      rcases List.mem_cons.mp hb with rfl | hb2
      · exact h1
      · exact h2 b hb2

theorem radix_lt {a b A B : Nat} (ha : a < A) (hb : b < B) : a * B + b < A * B := by
  calc a * B + b < a * B + B := by omega
    _ = (a + 1) * B := by ring
    _ ≤ A * B := Nat.mul_le_mul_right B ha

theorem convert_index_lt {i r col ch N : Nat}
    (hi : i < N) (hr : r < img_size) (hcol : col < img_size) (hch : ch < num_channels) :
    ((i * num_channels + ch) * img_size + r) * img_size + col <
      N * (num_channels * img_size * img_size) := by
  have h1 : i * num_channels + ch < N * num_channels := radix_lt hi hch
  have h2 : (i * num_channels + ch) * img_size + r < N * num_channels * img_size :=
    radix_lt h1 hr
  have h3 : ((i * num_channels + ch) * img_size + r) * img_size + col <
      N * num_channels * img_size * img_size := radix_lt h2 hcol
  calc ((i * num_channels + ch) * img_size + r) * img_size + col
      < N * num_channels * img_size * img_size := h3
    _ = N * (num_channels * img_size * img_size) := by ring

theorem convert_ok (raw : List Nat) (N : Nat)
    (hlen : raw.length = N * (num_channels * img_size * img_size)) :
    _convert_images raw = Except.ok
      { n := N, h := img_size, w := img_size, c := num_channels
        pix := fun i r col ch =>
          ((raw.getD (((i * num_channels + ch) * img_size + r) * img_size + col) 0 : ℚ)) / 255 } := by
  have hpos : 0 < num_channels * img_size * img_size := by decide
  have hdvd : num_channels * img_size * img_size ∣ raw.length := ⟨N, by rw [hlen]; ring⟩
  have hn : raw.length / (num_channels * img_size * img_size) = N := by
    rw [hlen]
    exact Nat.mul_div_cancel N hpos
  simp only [_convert_images, if_pos hdvd, hn]

/-! ### Claim theorems: the one-hot encoder -/

/-- C4 counterexample: contrary to the claim that any negative label makes
`_one_hot_encoded` fail, the label `-1` with `num_classes = 3` succeeds and
returns the wrap-around row `[0, 0, 1]`. -/
theorem one_hot_negative_label_cex :
    _one_hot_encoded [-1] (some 3) = Except.ok [[0, 0, 1]] := by
  rfl

/-- C4 (amended): `_one_hot_encoded` fails with an index error (the spec's
`RangeError`) only when some label lies below `-num_classes`; a label vector
containing such a value yields no one-hot matrix. -/
theorem one_hot_fails_below_neg_num_classes (labels : List Int) (nc : Nat)
    (h : ∃ v ∈ labels, v < -(nc : Int)) :
    _one_hot_encoded labels (some nc) = Except.error PyError.indexError := by
  obtain ⟨v, hv, hlt⟩ := h
  have hbad : ∃ w ∈ labels, ¬(-(nc : Int) ≤ w ∧ w < (nc : Int)) :=
    ⟨v, hv, by omega⟩
  simpa [_one_hot_encoded] using npEyeTake_err nc labels hbad

/-- C4 witness: the single label `-4` with `num_classes = 3` makes the
encoder fail with an index error. -/
theorem one_hot_fails_below_neg_num_classes_witness :
    (∃ v ∈ ([-4] : List Int), v < -(3 : Int)) ∧
    _one_hot_encoded [-4] (some 3) = Except.error PyError.indexError := by
  refine ⟨by decide, one_hot_fails_below_neg_num_classes [-4] 3 (by decide)⟩

/-- C5: with all labels in `[0, num_classes)` and `num_classes` supplied,
`_one_hot_encoded` returns a matrix with one row per label, each row of
length `num_classes` holding `1.0` exactly at the label's column. -/
theorem one_hot_in_range (labels : List Int) (nc : Nat)
    (h : ∀ v ∈ labels, 0 ≤ v ∧ v < (nc : Int)) :
    ∃ M, _one_hot_encoded labels (some nc) = Except.ok M ∧
      M.length = labels.length ∧
      ∀ i, i < labels.length →
        (M.getD i []).length = nc ∧
        ∀ j, j < nc →
          (M.getD i []).getD j 0 = if (j : Int) = labels.getD i 0 then 1 else 0 := by
  have hall : ∀ v ∈ labels, -(nc : Int) ≤ v ∧ v < (nc : Int) := by
    intro v hv
    have := h v hv
    omega
  refine ⟨labels.map (fun v => npEyeRow nc (npWrap nc v)), ?_, by simp, ?_⟩
  · exact npEyeTake_ok nc labels hall
  · intro i hi
    have hrow : (labels.map (fun v => npEyeRow nc (npWrap nc v))).getD i [] =
        npEyeRow nc (npWrap nc (labels.getD i 0)) := map_getD _ _ _ hi _ _
    rw [hrow]
    have hv := h (labels.getD i 0) (getD_mem_of_lt labels i 0 hi)
    refine ⟨npEyeRow_length nc _, ?_⟩
    intro j hj
    rw [npEyeRow_getD nc _ j hj]
    have h0 : ¬ labels.getD i 0 < 0 := by omega
    simp only [npWrap, if_neg h0]
    by_cases hc : (j : Int) = labels.getD i 0
    · rw [if_pos (by omega), if_pos hc]
    · rw [if_neg (by omega), if_neg hc]

/-- C5 witness: labels `[0, 2, 1, 2]` with `num_classes = 3` produce exactly
the matrix `[[1,0,0],[0,0,1],[0,1,0],[0,0,1]]`. -/
theorem one_hot_in_range_witness :
    (∀ v ∈ ([0, 2, 1, 2] : List Int), 0 ≤ v ∧ v < (3 : Int)) ∧
    _one_hot_encoded [0, 2, 1, 2] (some 3) =
      Except.ok [[1, 0, 0], [0, 0, 1], [0, 1, 0], [0, 0, 1]] ∧
    (∃ M, _one_hot_encoded [0, 2, 1, 2] (some 3) = Except.ok M ∧
      M.length = ([0, 2, 1, 2] : List Int).length ∧
      ∀ i, i < ([0, 2, 1, 2] : List Int).length →
        (M.getD i []).length = 3 ∧
        ∀ j, j < 3 →
          (M.getD i []).getD j 0 =
            if (j : Int) = ([0, 2, 1, 2] : List Int).getD i 0 then 1 else 0) := by
  refine ⟨by decide, by rfl, one_hot_in_range [0, 2, 1, 2] 3 (by decide)⟩

/-- C6: with `num_classes` omitted and all labels non-negative (and the
vector non-empty, so that it has a maximum `m`), `_one_hot_encoded` infers
`num_classes = m + 1` and returns one row per label, each of length `m + 1`. -/
theorem one_hot_infers_num_classes (labels : List Int) (m : Int)
    (hmax : labels.max? = some m) (hnn : ∀ v ∈ labels, 0 ≤ v) :
    ∃ M, _one_hot_encoded labels none = Except.ok M ∧
      M.length = labels.length ∧
      ∀ row ∈ M, row.length = (m + 1).toNat := by
  obtain ⟨hmem, hle⟩ := max?_spec labels m hmax
  have hm0 : 0 ≤ m := hnn m hmem
  have hall : ∀ v ∈ labels, -(((m + 1).toNat : Nat) : Int) ≤ v ∧ v < (((m + 1).toNat : Nat) : Int) := by
    intro v hv
    have h1 := hnn v hv
    have h2 := hle v hv
    omega
  refine ⟨labels.map (fun v => npEyeRow (m + 1).toNat (npWrap (m + 1).toNat v)), ?_, by simp, ?_⟩
  · simp [_one_hot_encoded, hmax, if_neg (show ¬ m + 1 < 0 by omega), except_bind_ok,
      npEyeTake_ok (m + 1).toNat labels hall]
  · intro row hrow
    obtain ⟨v, _, rfl⟩ := List.mem_map.mp hrow
    exact npEyeRow_length _ _

/-- C6 witness: labels `[0, 3, 1]` with `num_classes` omitted give a 3 × 4
one-hot matrix. -/
theorem one_hot_infers_num_classes_witness :
    ([0, 3, 1] : List Int).max? = some 3 ∧
    (∀ v ∈ ([0, 3, 1] : List Int), 0 ≤ v) ∧
    (∃ M, _one_hot_encoded [0, 3, 1] none = Except.ok M ∧
      M.length = ([0, 3, 1] : List Int).length ∧
      ∀ row ∈ M, row.length = ((3 : Int) + 1).toNat) := by
  refine ⟨by decide, by decide, one_hot_infers_num_classes [0, 3, 1] 3 (by decide) (by decide)⟩

/-- C10: labels in `[-num_classes, num_classes)` never make the encoder
fail; a negative label `v` puts its single `1.0` at column
`num_classes + v` (numpy's wrap-around indexing). -/
theorem one_hot_negative_wraps (labels : List Int) (nc : Nat)
    (h : ∀ v ∈ labels, -(nc : Int) ≤ v ∧ v < (nc : Int)) :
    ∃ M, _one_hot_encoded labels (some nc) = Except.ok M ∧
      M.length = labels.length ∧
      ∀ i, i < labels.length → labels.getD i 0 < 0 →
        (M.getD i []).length = nc ∧
        ∀ j, j < nc →
          (M.getD i []).getD j 0 =
            if (j : Int) = (nc : Int) + labels.getD i 0 then 1 else 0 := by
  refine ⟨labels.map (fun v => npEyeRow nc (npWrap nc v)), ?_, by simp, ?_⟩
  · exact npEyeTake_ok nc labels h
  · intro i hi hneg
    have hrow : (labels.map (fun v => npEyeRow nc (npWrap nc v))).getD i [] =
        npEyeRow nc (npWrap nc (labels.getD i 0)) := map_getD _ _ _ hi _ _
    rw [hrow]
    have hv := h (labels.getD i 0) (getD_mem_of_lt labels i 0 hi)
    refine ⟨npEyeRow_length nc _, ?_⟩
    intro j hj
    rw [npEyeRow_getD nc _ j hj]
    simp only [npWrap, if_pos hneg]
    by_cases hc : (j : Int) = (nc : Int) + labels.getD i 0
    · rw [if_pos (by omega), if_pos hc]
    · rw [if_neg (by omega), if_neg hc]

/-- C10 witness: labels `[0, -1, 2]` with `num_classes = 3` succeed, and the
row for `-1` has its `1.0` at column `3 + (-1) = 2`. -/
theorem one_hot_negative_wraps_witness :
    (∀ v ∈ ([0, -1, 2] : List Int), -(3 : Int) ≤ v ∧ v < (3 : Int)) ∧
    (∃ M, _one_hot_encoded [0, -1, 2] (some 3) = Except.ok M ∧
      M.length = ([0, -1, 2] : List Int).length ∧
      ∀ i, i < ([0, -1, 2] : List Int).length → ([0, -1, 2] : List Int).getD i 0 < 0 →
        (M.getD i []).length = 3 ∧
        ∀ j, j < 3 →
          (M.getD i []).getD j 0 =
            if (j : Int) = (3 : Int) + ([0, -1, 2] : List Int).getD i 0 then 1 else 0) := by
  refine ⟨by decide, one_hot_negative_wraps [0, -1, 2] 3 (by decide)⟩

/-! ### Claim theorems: the image converter -/

/-- C1: on a buffer of unsigned bytes of length `N × C × H × W`,
`_convert_images` returns a tensor of shape `[N, H, W, C]` whose every
element lies in `[0, 1]`, and whose element at `[i, r, col, ch]` is the byte
at flat position `((i*C + ch)*H + r)*W + col` divided by `255` — the
channel-major source layout is transposed to channel-last. -/
theorem convert_images_spec (raw : List Nat) (N : Nat)
    (hlen : raw.length = N * (num_channels * img_size * img_size))
    (hbyte : ∀ b ∈ raw, b < 256) :
    ∃ t, _convert_images raw = Except.ok t ∧
      t.n = N ∧ t.h = img_size ∧ t.w = img_size ∧ t.c = num_channels ∧
      ∀ i r col ch, i < N → r < img_size → col < img_size → ch < num_channels →
        t.pix i r col ch =
          (raw.getD (((i * num_channels + ch) * img_size + r) * img_size + col) 0 : ℚ) / 255 ∧
        0 ≤ t.pix i r col ch ∧ t.pix i r col ch ≤ 1 := by
  refine ⟨_, convert_ok raw N hlen, rfl, rfl, rfl, rfl, ?_⟩
  intro i r col ch hi hr hcol hch
  have hlt : ((i * num_channels + ch) * img_size + r) * img_size + col < raw.length := by
    rw [hlen]
    exact convert_index_lt hi hr hcol hch
  have hmem : raw.getD (((i * num_channels + ch) * img_size + r) * img_size + col) 0 ∈ raw :=
    getD_mem_of_lt raw _ 0 hlt
  have hb : raw.getD (((i * num_channels + ch) * img_size + r) * img_size + col) 0 < 256 :=
    hbyte _ hmem
  refine ⟨rfl, ?_, ?_⟩
  · positivity
  · rw [div_le_one (by norm_num)]
    exact_mod_cast Nat.lt_succ_iff.mp hb

/-- C1 witness: a concrete 3072-byte buffer (one image, all bytes 7)
converts successfully and satisfies the layout and range properties. -/
theorem convert_images_spec_witness :
    (List.replicate 3072 (7 : Nat)).length = 1 * (num_channels * img_size * img_size) ∧
    (∀ b ∈ List.replicate 3072 (7 : Nat), b < 256) ∧
    (∃ t, _convert_images (List.replicate 3072 (7 : Nat)) = Except.ok t ∧
      t.n = 1 ∧ t.h = img_size ∧ t.w = img_size ∧ t.c = num_channels ∧
      ∀ i r col ch, i < 1 → r < img_size → col < img_size → ch < num_channels →
        t.pix i r col ch =
          (((List.replicate 3072 (7 : Nat)).getD
            (((i * num_channels + ch) * img_size + r) * img_size + col) 0 : Nat) : ℚ) / 255 ∧
        0 ≤ t.pix i r col ch ∧ t.pix i r col ch ≤ 1) := by
  have h1 : (List.replicate 3072 (7 : Nat)).length = 1 * (num_channels * img_size * img_size) := by
    rw [List.length_replicate]
    decide
  have h2 : ∀ b ∈ List.replicate 3072 (7 : Nat), b < 256 := by
    intro b hb
    rw [List.eq_of_mem_replicate hb]
    norm_num
  exact ⟨h1, h2, convert_images_spec (List.replicate 3072 (7 : Nat)) 1 h1 h2⟩

/-- C8: `_convert_images` fails with the size-mismatch error (the spec's
`ShapeError`, numpy's `ValueError`) exactly when the buffer length is not a
multiple of `C × H × W`, and succeeds otherwise. -/
theorem convert_images_shape_guard (raw : List Nat) :
    (¬ (num_channels * img_size * img_size) ∣ raw.length →
      _convert_images raw = Except.error PyError.valueError) ∧
    ((num_channels * img_size * img_size) ∣ raw.length →
      ∃ t, _convert_images raw = Except.ok t) := by
  constructor
  · intro h
    simp only [_convert_images, if_neg h]
  · intro h
    obtain ⟨N, hN⟩ := h
    exact ⟨_, convert_ok raw N (by rw [hN]; ring)⟩

/-- C8 witness: a 1-byte buffer is rejected with the size-mismatch error,
while a 3072-byte buffer converts successfully. -/
theorem convert_images_shape_guard_witness :
    (¬ (num_channels * img_size * img_size) ∣ ([0] : List Nat).length ∧
      _convert_images [0] = Except.error PyError.valueError) ∧
    ((num_channels * img_size * img_size) ∣ (List.replicate 3072 (0 : Nat)).length ∧
      ∃ t, _convert_images (List.replicate 3072 (0 : Nat)) = Except.ok t) := by
  have hnd : ¬ (num_channels * img_size * img_size) ∣ ([0] : List Nat).length := by decide
  have hd : (num_channels * img_size * img_size) ∣ (List.replicate 3072 (0 : Nat)).length := by
    rw [List.length_replicate]
    decide
  exact ⟨⟨hnd, (convert_images_shape_guard [0]).1 hnd⟩,
    ⟨hd, (convert_images_shape_guard (List.replicate 3072 0)).2 hd⟩⟩

/-! ### Helper lemmas: slice assignment and the training loop -/

theorem writeSliceUpd_n (arr : Tensor4) (b e : Nat) (batch : Tensor4) :
    (writeSliceUpd arr b e batch).n = arr.n := rfl

theorem writeSliceUpd_pix_of_lt (arr : Tensor4) (b e : Nat) (batch : Tensor4)
    (i r col ch : Nat) (hi : i < b) :
    (writeSliceUpd arr b e batch).pix i r col ch = arr.pix i r col ch := by
  simp only [writeSliceUpd]
  rw [if_neg (by omega)]

theorem writeSliceUpd_pix_of_ge (arr : Tensor4) (b e : Nat) (batch : Tensor4)
    (i r col ch : Nat) (h1 : b ≤ i) (h2 : i < e) (h3 : e ≤ arr.n) :
    (writeSliceUpd arr b e batch).pix i r col ch = batch.pix (i - b) r col ch := by
  simp only [writeSliceUpd]
  rw [if_pos ⟨h1, by omega⟩]

theorem writeSlice_ok (arr : Tensor4) (b e : Nat) (batch : Tensor4)
    (hbe : e = b + batch.n) (hfit : e ≤ arr.n) :
    writeSlice arr b e batch = Except.ok (writeSliceUpd arr b e batch) := by
  have hg : batch.n = npSliceLen arr.n b e := by
    simp only [npSliceLen]
    omega
  simp only [writeSlice, if_pos hg]

theorem setSliceUpd_length (l : List Int) (b e : Nat) (batch : List Int)
    (hbe : e = b + batch.length) (hfit : e ≤ l.length) :
    (setSliceUpd l b e batch).length = l.length := by
  simp only [setSliceUpd, List.length_append, List.length_take, List.length_drop]
  omega

theorem setSlice_ok (l : List Int) (b e : Nat) (batch : List Int)
    (hbe : e = b + batch.length) (hfit : e ≤ l.length) :
    setSlice l b e batch = Except.ok (setSliceUpd l b e batch) := by
  have hg : batch.length = npSliceLen l.length b e := by
    simp only [npSliceLen]
    omega
  simp only [setSlice, if_pos hg]

theorem setSliceUpd_getD_in (l : List Int) (b e : Nat) (batch : List Int) (k : Nat)
    (hk : k < batch.length) (hbe : e = b + batch.length) (hfit : e ≤ l.length) :
    (setSliceUpd l b e batch).getD (b + k) 0 = batch.getD k 0 := by
  have hminb : min b l.length = b := by omega
  have htake : (List.take (min b l.length) l).length = b := by
    rw [hminb, List.length_take]
    omega
  simp only [setSliceUpd, List.getD_eq_getElem?_getD]
  rw [List.getElem?_append, if_pos (by rw [List.length_append, htake]; omega)]
  rw [List.getElem?_append_right (by rw [htake]; omega), htake]
  have hbk : b + k - b = k := by omega
  rw [hbk]

theorem setSliceUpd_getD_lt (l : List Int) (b e : Nat) (batch : List Int) (j : Nat)
    (hj : j < b) (hbe : e = b + batch.length) (hfit : e ≤ l.length) :
    (setSliceUpd l b e batch).getD j 0 = l.getD j 0 := by
  have hminb : min b l.length = b := by omega
  have htake : (List.take (min b l.length) l).length = b := by
    rw [hminb, List.length_take]
    omega
  simp only [setSliceUpd, List.getD_eq_getElem?_getD]
  rw [List.getElem?_append, if_pos (by rw [List.length_append, htake]; omega)]
  rw [List.getElem?_append, if_pos (by rw [htake]; omega)]
  rw [hminb, List.getElem?_take_of_lt hj]

theorem setSliceUpd_mem (l : List Int) (b e : Nat) (batch : List Int) (v : Int)
    (hv : v ∈ setSliceUpd l b e batch) : v ∈ l ∨ v ∈ batch := by
  simp only [setSliceUpd, List.mem_append] at hv
  rcases hv with (h | h) | h
  · exact Or.inl (List.mem_of_mem_take h)
  · exact Or.inr h
  · exact Or.inl (List.mem_of_mem_drop h)

theorem trainLoop_cons_ok (disk : Disk) (i : Nat) (rest : List Nat)
    (images : Tensor4) (cls : List Int) (b e : Nat) (t : Tensor4) (c : List Int)
    (images2 : Tensor4) (cls2 : List Int)
    (h : _load_data disk (train_filename i) = Except.ok (t, c))
    (hbe : e = b + t.n)
    (h2 : writeSlice images b e t = Except.ok images2)
    (h3 : setSlice cls b e c = Except.ok cls2) :
    trainLoop disk (i :: rest) images cls b = trainLoop disk rest images2 cls2 e := by
  subst hbe
  simp [trainLoop, h, h2, h3, except_bind_ok]

theorem trainLoop_cons_err (disk : Disk) (i : Nat) (rest : List Nat)
    (images : Tensor4) (cls : List Int) (b : Nat) (e : PyError)
    (h : _load_data disk (train_filename i) = Except.error e) :
    trainLoop disk (i :: rest) images cls b = Except.error e := by
  simp [trainLoop, h, except_bind_err]

theorem trainLoop_five (disk : Disk) (T : Nat → Tensor4) (C : Nat → List Int)
    (hload : ∀ i, i < 5 → _load_data disk (train_filename i) = Except.ok (T i, C i))
    (hn : ∀ i, i < 5 → (T i).n = 10000)
    (hc : ∀ i, i < 5 → (C i).length = 10000)
    (images0 : Tensor4) (cls0 : List Int)
    (h0n : images0.n = 50000) (h0c : cls0.length = 50000) :
    trainLoop disk [0, 1, 2, 3, 4] images0 cls0 0 = Except.ok
      (writeSliceUpd (writeSliceUpd (writeSliceUpd (writeSliceUpd
        (writeSliceUpd images0 0 10000 (T 0)) 10000 20000 (T 1)) 20000 30000 (T 2))
        30000 40000 (T 3)) 40000 50000 (T 4),
       setSliceUpd (setSliceUpd (setSliceUpd (setSliceUpd
        (setSliceUpd cls0 0 10000 (C 0)) 10000 20000 (C 1)) 20000 30000 (C 2))
        30000 40000 (C 3)) 40000 50000 (C 4)) := by
  have hn0 := hn 0 (by norm_num)
  have hn1 := hn 1 (by norm_num)
  have hn2 := hn 2 (by norm_num)
  have hn3 := hn 3 (by norm_num)
  have hn4 := hn 4 (by norm_num)
  have hc0 := hc 0 (by norm_num)
  have hc1 := hc 1 (by norm_num)
  have hc2 := hc 2 (by norm_num)
  have hc3 := hc 3 (by norm_num)
  have hc4 := hc 4 (by norm_num)
  set A0 := writeSliceUpd images0 0 10000 (T 0) with hA0
  set A1 := writeSliceUpd A0 10000 20000 (T 1) with hA1
  set A2 := writeSliceUpd A1 20000 30000 (T 2) with hA2
  set A3 := writeSliceUpd A2 30000 40000 (T 3) with hA3
  set L0 := setSliceUpd cls0 0 10000 (C 0) with hL0
  set L1 := setSliceUpd L0 10000 20000 (C 1) with hL1
  set L2 := setSliceUpd L1 20000 30000 (C 2) with hL2
  set L3 := setSliceUpd L2 30000 40000 (C 3) with hL3
  have hA0n : A0.n = 50000 := by rw [hA0, writeSliceUpd_n, h0n]
  have hA1n : A1.n = 50000 := by rw [hA1, writeSliceUpd_n, hA0n]
  have hA2n : A2.n = 50000 := by rw [hA2, writeSliceUpd_n, hA1n]
  have hA3n : A3.n = 50000 := by rw [hA3, writeSliceUpd_n, hA2n]
  have hL0c : L0.length = 50000 := by
    rw [hL0, setSliceUpd_length cls0 0 10000 (C 0) (by rw [hc0]) (by rw [h0c]; omega), h0c]
  have hL1c : L1.length = 50000 := by
    rw [hL1, setSliceUpd_length L0 10000 20000 (C 1) (by rw [hc1]) (by rw [hL0c]; omega), hL0c]
  have hL2c : L2.length = 50000 := by
    rw [hL2, setSliceUpd_length L1 20000 30000 (C 2) (by rw [hc2]) (by rw [hL1c]; omega), hL1c]
  have hL3c : L3.length = 50000 := by
    rw [hL3, setSliceUpd_length L2 30000 40000 (C 3) (by rw [hc3]) (by rw [hL2c]; omega), hL2c]
  rw [trainLoop_cons_ok disk 0 [1, 2, 3, 4] images0 cls0 0 10000 (T 0) (C 0) A0 L0
    (hload 0 (by norm_num)) (by rw [hn0])
    (by rw [hA0]; exact writeSlice_ok images0 0 10000 (T 0) (by rw [hn0]) (by rw [h0n]; omega))
    (by rw [hL0]; exact setSlice_ok cls0 0 10000 (C 0) (by rw [hc0]) (by rw [h0c]; omega))]
  rw [trainLoop_cons_ok disk 1 [2, 3, 4] A0 L0 10000 20000 (T 1) (C 1) A1 L1
    (hload 1 (by norm_num)) (by rw [hn1])
    (by rw [hA1]; exact writeSlice_ok A0 10000 20000 (T 1) (by rw [hn1]) (by rw [hA0n]; omega))
    (by rw [hL1]; exact setSlice_ok L0 10000 20000 (C 1) (by rw [hc1]) (by rw [hL0c]; omega))]
  rw [trainLoop_cons_ok disk 2 [3, 4] A1 L1 20000 30000 (T 2) (C 2) A2 L2
    (hload 2 (by norm_num)) (by rw [hn2])
    (by rw [hA2]; exact writeSlice_ok A1 20000 30000 (T 2) (by rw [hn2]) (by rw [hA1n]; omega))
    (by rw [hL2]; exact setSlice_ok L1 20000 30000 (C 2) (by rw [hc2]) (by rw [hL1c]; omega))]
  rw [trainLoop_cons_ok disk 3 [4] A2 L2 30000 40000 (T 3) (C 3) A3 L3
    (hload 3 (by norm_num)) (by rw [hn3])
    (by rw [hA3]; exact writeSlice_ok A2 30000 40000 (T 3) (by rw [hn3]) (by rw [hA2n]; omega))
    (by rw [hL3]; exact setSlice_ok L2 30000 40000 (C 3) (by rw [hc3]) (by rw [hL2c]; omega))]
  rw [trainLoop_cons_ok disk 4 [] A3 L3 40000 50000 (T 4) (C 4)
    (writeSliceUpd A3 40000 50000 (T 4)) (setSliceUpd L3 40000 50000 (C 4))
    (hload 4 (by norm_num)) (by rw [hn4])
    (writeSlice_ok A3 40000 50000 (T 4) (by rw [hn4]) (by rw [hA3n]))
    (setSlice_ok L3 40000 50000 (C 4) (by rw [hc4]) (by rw [hL3c]))]
  rfl

theorem trainLoop_err_prefix (disk : Disk) (e : PyError) :
    ∀ (pre : List Nat) (k : Nat) (post : List Nat) (images : Tensor4)
      (cls : List Int) (b : Nat),
      (∀ j ∈ pre, ∃ t c, _load_data disk (train_filename j) = Except.ok (t, c) ∧
        t.n = 10000 ∧ c.length = 10000) →
      _load_data disk (train_filename k) = Except.error e →
      b + pre.length * 10000 ≤ images.n →
      b + pre.length * 10000 ≤ cls.length →
      trainLoop disk (pre ++ k :: post) images cls b = Except.error e := by
  intro pre
  induction pre with
  | nil =>
    intro k post images cls b _ hfail _ _
    simpa using trainLoop_cons_err disk k post images cls b e hfail
  | cons j js ih =>
    intro k post images cls b hpre hfail hfi hfc
    obtain ⟨t, c, hl, htn, hcn⟩ := hpre j (List.mem_cons_self j js)
    simp only [List.length_cons] at hfi hfc
    rw [List.cons_append]
    rw [trainLoop_cons_ok disk j (js ++ k :: post) images cls b (b + 10000) t c
      (writeSliceUpd images b (b + 10000) t) (setSliceUpd cls b (b + 10000) c)
      hl (by rw [htn])
      (writeSlice_ok images b (b + 10000) t (by rw [htn]) (by omega))
      (setSlice_ok cls b (b + 10000) c (by rw [hcn]) (by omega))]
    refine ih k post _ _ (b + 10000)
      (fun j2 hj2 => hpre j2 (List.mem_cons_of_mem j hj2)) hfail ?_ ?_
    · rw [writeSliceUpd_n]
      omega
    · rw [setSliceUpd_length cls b (b + 10000) c (by rw [hcn]) (by omega)]
      omega

theorem load_training_data_loop_err (disk : Disk) (e : PyError)
    (h : trainLoop disk (List.range _num_files_train)
      { n := _num_images_train, h := img_size, w := img_size, c := num_channels
        pix := fun _ _ _ _ => 0 }
      (List.replicate _num_images_train 0) 0 = Except.error e) :
    load_training_data disk = Except.error e := by
  simp [load_training_data, h, except_bind_err]

theorem load_training_data_loop_ok (disk : Disk) (imgs : Tensor4) (cls : List Int)
    (oh : List (List ℚ))
    (h1 : trainLoop disk (List.range _num_files_train)
      { n := _num_images_train, h := img_size, w := img_size, c := num_channels
        pix := fun _ _ _ _ => 0 }
      (List.replicate _num_images_train 0) 0 = Except.ok (imgs, cls))
    (h2 : _one_hot_encoded cls (some num_classes) = Except.ok oh) :
    load_training_data disk = Except.ok (imgs, oh) := by
  simp [load_training_data, h1, h2, except_bind_ok]

/-! ### Claim theorems: the dataset assemblers -/

/-- C3 (code bug): `load_class_names` never deserializes the metadata file —
line 167 calls the bare name `_unpickle` instead of `self._unpickle`, so every
invocation raises `NameError` and no class-name list is ever returned. -/
theorem load_class_names_always_fails (disk : Disk) :
    load_class_names disk = Except.error PyError.nameError := rfl

/-- C9: if the batches before `k` load, convert and store successfully (each
holding the layout's 10000 images and 10000 labels, so every slice write
fits) and batch `k` fails (deserialization or conversion),
`load_training_data` aborts with that very error and returns no partial
result. -/
theorem load_training_data_propagates (disk : Disk) (k : Nat) (e : PyError)
    (hk : k < _num_files_train)
    (hprev : ∀ j, j < k → ∃ t c, _load_data disk (train_filename j) = Except.ok (t, c) ∧
      t.n = _images_per_file ∧ c.length = _images_per_file)
    (hfail : _load_data disk (train_filename k) = Except.error e) :
    load_training_data disk = Except.error e := by
  apply load_training_data_loop_err
  have hr : List.range _num_files_train = [0, 1, 2, 3, 4] := rfl
  rw [hr]
  have hk5 : k < 5 := hk
  have hpre : ∀ j, j < k → ∃ t c, _load_data disk (train_filename j) = Except.ok (t, c) ∧
      t.n = 10000 ∧ c.length = 10000 := hprev
  interval_cases k
  · exact trainLoop_err_prefix disk e [] 0 [1, 2, 3, 4]
      { n := _num_images_train, h := img_size, w := img_size, c := num_channels
        pix := fun _ _ _ _ => 0 }
      (List.replicate _num_images_train 0) 0
      (by intro j hj; simp at hj) hfail (by decide)
      (by rw [List.length_replicate]; decide)
  · exact trainLoop_err_prefix disk e [0] 1 [2, 3, 4]
      { n := _num_images_train, h := img_size, w := img_size, c := num_channels
        pix := fun _ _ _ _ => 0 }
      (List.replicate _num_images_train 0) 0
      (by
        intro j hj
        simp at hj
        subst hj
        exact hpre 0 (by omega)) hfail (by decide)
      (by rw [List.length_replicate]; decide)
  · exact trainLoop_err_prefix disk e [0, 1] 2 [3, 4]
      { n := _num_images_train, h := img_size, w := img_size, c := num_channels
        pix := fun _ _ _ _ => 0 }
      (List.replicate _num_images_train 0) 0
      (by
        intro j hj
        simp at hj
        rcases hj with rfl | rfl
        · exact hpre 0 (by omega)
        · exact hpre 1 (by omega)) hfail (by decide)
      (by rw [List.length_replicate]; decide)
  · exact trainLoop_err_prefix disk e [0, 1, 2] 3 [4]
      { n := _num_images_train, h := img_size, w := img_size, c := num_channels
        pix := fun _ _ _ _ => 0 }
      (List.replicate _num_images_train 0) 0
      (by
        intro j hj
        simp at hj
        rcases hj with rfl | rfl | rfl
        · exact hpre 0 (by omega)
        · exact hpre 1 (by omega)
        · exact hpre 2 (by omega)) hfail (by decide)
      (by rw [List.length_replicate]; decide)
  · exact trainLoop_err_prefix disk e [0, 1, 2, 3] 4 []
      { n := _num_images_train, h := img_size, w := img_size, c := num_channels
        pix := fun _ _ _ _ => 0 }
      (List.replicate _num_images_train 0) 0
      (by
        intro j hj
        simp at hj
        rcases hj with rfl | rfl | rfl | rfl
        · exact hpre 0 (by omega)
        · exact hpre 1 (by omega)
        · exact hpre 2 (by omega)
        · exact hpre 3 (by omega)) hfail (by decide)
      (by rw [List.length_replicate]; decide)

/-- C9 witness: with every file absent (the oracle always reports an
I/O error), file 0 fails with no prior batches, and `load_training_data`
surfaces exactly that I/O error. -/
theorem load_training_data_propagates_witness :
    (0 : Nat) < _num_files_train ∧
    (∀ j, j < 0 → ∃ t c, _load_data (fun _ => Except.error PyError.ioError : Disk)
      (train_filename j) = Except.ok (t, c) ∧ t.n = _images_per_file ∧
      c.length = _images_per_file) ∧
    _load_data (fun _ => Except.error PyError.ioError : Disk) (train_filename 0) =
      Except.error PyError.ioError ∧
    load_training_data (fun _ => Except.error PyError.ioError : Disk) =
      Except.error PyError.ioError := by
  refine ⟨by decide, fun j hj => absurd hj (by omega), rfl, ?_⟩
  exact load_training_data_propagates _ 0 _ (by decide)
    (fun j hj => absurd hj (by omega)) rfl

/-- C7 (code bug): evaluating `load_test_data` on a well-formed one-image
test batch shows the returned aggregate is only the pair
`(images, one_hot)` — the class-number vector, which the docstring promises,
is absent from the return value; for the parts that are returned the counts
do agree (`images.n = 1 =` number of one-hot rows). -/
theorem load_test_data_eval :
    ∃ t, load_test_data
        (fun _ => Except.ok ⟨List.replicate 3072 0, [0]⟩ : Disk) =
      Except.ok (t, [npEyeRow num_classes 0]) ∧
      t.n = 1 ∧ [npEyeRow num_classes 0].length = 1 := by
  have hc := convert_ok (List.replicate 3072 0) 1
    (by rw [List.length_replicate]; decide)
  refine ⟨{ n := 1, h := img_size, w := img_size, c := num_channels
            pix := fun i r col ch =>
              (((List.replicate 3072 (0 : Nat)).getD
                (((i * num_channels + ch) * img_size + r) * img_size + col) 0 : Nat) : ℚ) / 255 },
    ?_, rfl, rfl⟩
  simp only [load_test_data, _load_data, _unpickle, hc, except_bind_ok]
  rfl

theorem writeSlice5_pix (images0 : Tensor4) (T : Nat → Tensor4)
    (h0n : images0.n = 50000)
    (i : Nat) (hi : i < 5) (k r col ch : Nat) (hk : k < 10000) :
    (writeSliceUpd (writeSliceUpd (writeSliceUpd (writeSliceUpd
      (writeSliceUpd images0 0 10000 (T 0)) 10000 20000 (T 1)) 20000 30000 (T 2))
      30000 40000 (T 3)) 40000 50000 (T 4)).pix (i * 10000 + k) r col ch
      = (T i).pix k r col ch := by
  set A0 := writeSliceUpd images0 0 10000 (T 0) with hA0
  set A1 := writeSliceUpd A0 10000 20000 (T 1) with hA1
  set A2 := writeSliceUpd A1 20000 30000 (T 2) with hA2
  set A3 := writeSliceUpd A2 30000 40000 (T 3) with hA3
  have hA0n : A0.n = 50000 := by rw [hA0, writeSliceUpd_n, h0n]
  have hA1n : A1.n = 50000 := by rw [hA1, writeSliceUpd_n, hA0n]
  have hA2n : A2.n = 50000 := by rw [hA2, writeSliceUpd_n, hA1n]
  have hA3n : A3.n = 50000 := by rw [hA3, writeSliceUpd_n, hA2n]
  interval_cases i
  · rw [writeSliceUpd_pix_of_lt A3 40000 50000 (T 4) (0 * 10000 + k) r col ch (by omega), hA3]
    rw [writeSliceUpd_pix_of_lt A2 30000 40000 (T 3) (0 * 10000 + k) r col ch (by omega), hA2]
    rw [writeSliceUpd_pix_of_lt A1 20000 30000 (T 2) (0 * 10000 + k) r col ch (by omega), hA1]
    rw [writeSliceUpd_pix_of_lt A0 10000 20000 (T 1) (0 * 10000 + k) r col ch (by omega), hA0]
    rw [writeSliceUpd_pix_of_ge images0 0 10000 (T 0) (0 * 10000 + k) r col ch (by omega)
      (by omega) (by rw [h0n]; omega)]
    have hidx : 0 * 10000 + k - 0 = k := by omega
    rw [hidx]
  · rw [writeSliceUpd_pix_of_lt A3 40000 50000 (T 4) (1 * 10000 + k) r col ch (by omega), hA3]
    rw [writeSliceUpd_pix_of_lt A2 30000 40000 (T 3) (1 * 10000 + k) r col ch (by omega), hA2]
    rw [writeSliceUpd_pix_of_lt A1 20000 30000 (T 2) (1 * 10000 + k) r col ch (by omega), hA1]
    rw [writeSliceUpd_pix_of_ge A0 10000 20000 (T 1) (1 * 10000 + k) r col ch (by omega)
      (by omega) (by rw [hA0n]; omega)]
    have hidx : 1 * 10000 + k - 10000 = k := by omega
    rw [hidx]
  · rw [writeSliceUpd_pix_of_lt A3 40000 50000 (T 4) (2 * 10000 + k) r col ch (by omega), hA3]
    rw [writeSliceUpd_pix_of_lt A2 30000 40000 (T 3) (2 * 10000 + k) r col ch (by omega), hA2]
    rw [writeSliceUpd_pix_of_ge A1 20000 30000 (T 2) (2 * 10000 + k) r col ch (by omega)
      (by omega) (by rw [hA1n]; omega)]
    have hidx : 2 * 10000 + k - 20000 = k := by omega
    rw [hidx]
  · rw [writeSliceUpd_pix_of_lt A3 40000 50000 (T 4) (3 * 10000 + k) r col ch (by omega), hA3]
    rw [writeSliceUpd_pix_of_ge A2 30000 40000 (T 3) (3 * 10000 + k) r col ch (by omega)
      (by omega) (by rw [hA2n]; omega)]
    have hidx : 3 * 10000 + k - 30000 = k := by omega
    rw [hidx]
  · rw [writeSliceUpd_pix_of_ge A3 40000 50000 (T 4) (4 * 10000 + k) r col ch (by omega)
      (by omega) (by rw [hA3n])]
    have hidx : 4 * 10000 + k - 40000 = k := by omega
    rw [hidx]

theorem setSlice5_length (cls0 : List Int) (C : Nat → List Int)
    (h0 : cls0.length = 50000) (hC : ∀ i, i < 5 → (C i).length = 10000) :
    (setSliceUpd (setSliceUpd (setSliceUpd (setSliceUpd
      (setSliceUpd cls0 0 10000 (C 0)) 10000 20000 (C 1)) 20000 30000 (C 2))
      30000 40000 (C 3)) 40000 50000 (C 4)).length = 50000 := by
  set L0 := setSliceUpd cls0 0 10000 (C 0) with hL0
  set L1 := setSliceUpd L0 10000 20000 (C 1) with hL1
  set L2 := setSliceUpd L1 20000 30000 (C 2) with hL2
  set L3 := setSliceUpd L2 30000 40000 (C 3) with hL3
  have he0 : L0.length = 50000 := by
    rw [hL0, setSliceUpd_length cls0 0 10000 (C 0) (by rw [hC 0 (by norm_num)])
      (by rw [h0]; omega), h0]
  have he1 : L1.length = 50000 := by
    rw [hL1, setSliceUpd_length L0 10000 20000 (C 1) (by rw [hC 1 (by norm_num)])
      (by rw [he0]; omega), he0]
  have he2 : L2.length = 50000 := by
    rw [hL2, setSliceUpd_length L1 20000 30000 (C 2) (by rw [hC 2 (by norm_num)])
      (by rw [he1]; omega), he1]
  have he3 : L3.length = 50000 := by
    rw [hL3, setSliceUpd_length L2 30000 40000 (C 3) (by rw [hC 3 (by norm_num)])
      (by rw [he2]; omega), he2]
  rw [setSliceUpd_length L3 40000 50000 (C 4) (by rw [hC 4 (by norm_num)]) (by rw [he3])]
  exact he3

theorem setSlice5_getD (cls0 : List Int) (C : Nat → List Int)
    (h0 : cls0.length = 50000) (hC : ∀ i, i < 5 → (C i).length = 10000)
    (i : Nat) (hi : i < 5) (k : Nat) (hk : k < 10000) :
    (setSliceUpd (setSliceUpd (setSliceUpd (setSliceUpd
      (setSliceUpd cls0 0 10000 (C 0)) 10000 20000 (C 1)) 20000 30000 (C 2))
      30000 40000 (C 3)) 40000 50000 (C 4)).getD (i * 10000 + k) 0 = (C i).getD k 0 := by
  set L0 := setSliceUpd cls0 0 10000 (C 0) with hL0
  set L1 := setSliceUpd L0 10000 20000 (C 1) with hL1
  set L2 := setSliceUpd L1 20000 30000 (C 2) with hL2
  set L3 := setSliceUpd L2 30000 40000 (C 3) with hL3
  have he0 : L0.length = 50000 := by
    rw [hL0, setSliceUpd_length cls0 0 10000 (C 0) (by rw [hC 0 (by norm_num)])
      (by rw [h0]; omega), h0]
  have he1 : L1.length = 50000 := by
    rw [hL1, setSliceUpd_length L0 10000 20000 (C 1) (by rw [hC 1 (by norm_num)])
      (by rw [he0]; omega), he0]
  have he2 : L2.length = 50000 := by
    rw [hL2, setSliceUpd_length L1 20000 30000 (C 2) (by rw [hC 2 (by norm_num)])
      (by rw [he1]; omega), he1]
  have he3 : L3.length = 50000 := by
    rw [hL3, setSliceUpd_length L2 30000 40000 (C 3) (by rw [hC 3 (by norm_num)])
      (by rw [he2]; omega), he2]
  interval_cases i
  · rw [setSliceUpd_getD_lt L3 40000 50000 (C 4) (0 * 10000 + k) (by omega)
      (by rw [hC 4 (by norm_num)]) (by rw [he3]), hL3]
    rw [setSliceUpd_getD_lt L2 30000 40000 (C 3) (0 * 10000 + k) (by omega)
      (by rw [hC 3 (by norm_num)]) (by rw [he2]; omega), hL2]
    rw [setSliceUpd_getD_lt L1 20000 30000 (C 2) (0 * 10000 + k) (by omega)
      (by rw [hC 2 (by norm_num)]) (by rw [he1]; omega), hL1]
    rw [setSliceUpd_getD_lt L0 10000 20000 (C 1) (0 * 10000 + k) (by omega)
      (by rw [hC 1 (by norm_num)]) (by rw [he0]; omega), hL0]
    have hidx : 0 * 10000 + k = 0 + k := by omega
    rw [hidx]
    exact setSliceUpd_getD_in cls0 0 10000 (C 0) k (by rw [hC 0 (by norm_num)]; omega)
      (by rw [hC 0 (by norm_num)]) (by rw [h0]; omega)
  · rw [setSliceUpd_getD_lt L3 40000 50000 (C 4) (1 * 10000 + k) (by omega)
      (by rw [hC 4 (by norm_num)]) (by rw [he3]), hL3]
    rw [setSliceUpd_getD_lt L2 30000 40000 (C 3) (1 * 10000 + k) (by omega)
      (by rw [hC 3 (by norm_num)]) (by rw [he2]; omega), hL2]
    rw [setSliceUpd_getD_lt L1 20000 30000 (C 2) (1 * 10000 + k) (by omega)
      (by rw [hC 2 (by norm_num)]) (by rw [he1]; omega), hL1]
    have hidx : 1 * 10000 + k = 10000 + k := by omega
    rw [hidx]
    exact setSliceUpd_getD_in L0 10000 20000 (C 1) k (by rw [hC 1 (by norm_num)]; omega)
      (by rw [hC 1 (by norm_num)]) (by rw [he0]; omega)
  · rw [setSliceUpd_getD_lt L3 40000 50000 (C 4) (2 * 10000 + k) (by omega)
      (by rw [hC 4 (by norm_num)]) (by rw [he3]), hL3]
    rw [setSliceUpd_getD_lt L2 30000 40000 (C 3) (2 * 10000 + k) (by omega)
      (by rw [hC 3 (by norm_num)]) (by rw [he2]; omega), hL2]
    have hidx : 2 * 10000 + k = 20000 + k := by omega
    rw [hidx]
    exact setSliceUpd_getD_in L1 20000 30000 (C 2) k (by rw [hC 2 (by norm_num)]; omega)
      (by rw [hC 2 (by norm_num)]) (by rw [he1]; omega)
  · rw [setSliceUpd_getD_lt L3 40000 50000 (C 4) (3 * 10000 + k) (by omega)
      (by rw [hC 4 (by norm_num)]) (by rw [he3]), hL3]
    have hidx : 3 * 10000 + k = 30000 + k := by omega
    rw [hidx]
    exact setSliceUpd_getD_in L2 30000 40000 (C 3) k (by rw [hC 3 (by norm_num)]; omega)
      (by rw [hC 3 (by norm_num)]) (by rw [he2]; omega)
  · have hidx : 4 * 10000 + k = 40000 + k := by omega
    rw [hidx]
    exact setSliceUpd_getD_in L3 40000 50000 (C 4) k (by rw [hC 4 (by norm_num)]; omega)
      (by rw [hC 4 (by norm_num)]) (by rw [he3])

theorem setSlice5_mem (cls0 : List Int) (C : Nat → List Int) (v : Int)
    (hv : v ∈ setSliceUpd (setSliceUpd (setSliceUpd (setSliceUpd
      (setSliceUpd cls0 0 10000 (C 0)) 10000 20000 (C 1)) 20000 30000 (C 2))
      30000 40000 (C 3)) 40000 50000 (C 4)) :
    v ∈ cls0 ∨ ∃ i, i < 5 ∧ v ∈ C i := by
  rcases setSliceUpd_mem _ _ _ _ _ hv with hv | h
  · rcases setSliceUpd_mem _ _ _ _ _ hv with hv | h
    · rcases setSliceUpd_mem _ _ _ _ _ hv with hv | h
      · rcases setSliceUpd_mem _ _ _ _ _ hv with hv | h
        · rcases setSliceUpd_mem _ _ _ _ _ hv with hv | h
          · exact Or.inl hv
          · exact Or.inr ⟨0, by omega, h⟩
        · exact Or.inr ⟨1, by omega, h⟩
      · exact Or.inr ⟨2, by omega, h⟩
    · exact Or.inr ⟨3, by omega, h⟩
  · exact Or.inr ⟨4, by omega, h⟩

/-- C2: with five batch files of 10000 images each on disk (labels in
range), `load_training_data` succeeds: the pre-allocated image tensor keeps
first dimension exactly 50000, batch `i`'s converted images appear unchanged
in the slice `[i*10000, (i+1)*10000)`, and the returned one-hot matrix is the
single-pass encoding of the complete assembled 50000-entry label vector. -/
theorem load_training_data_assembles (disk : Disk) (B : Nat → RawBatch)
    (hdisk : ∀ i, i < 5 →
      disk (data_path ++ base_folder ++ train_filename i) = Except.ok (B i))
    (hlen : ∀ i, i < 5 →
      (B i).data.length = 10000 * (num_channels * img_size * img_size))
    (hlab : ∀ i, i < 5 → (B i).labels.length = 10000 ∧
      ∀ v ∈ (B i).labels, 0 ≤ v ∧ v < (num_classes : Int)) :
    ∃ imgs oh, load_training_data disk = Except.ok (imgs, oh) ∧
      imgs.n = 50000 ∧
      (∀ i, i < 5 → ∃ t, _convert_images (B i).data = Except.ok t ∧
        ∀ k r col ch, k < 10000 →
          imgs.pix (i * 10000 + k) r col ch = t.pix k r col ch) ∧
      ∃ cls : List Int, cls.length = 50000 ∧
        (∀ i k, i < 5 → k < 10000 →
          cls.getD (i * 10000 + k) 0 = (B i).labels.getD k 0) ∧
        _one_hot_encoded cls (some num_classes) = Except.ok oh := by
  obtain ⟨C, hCdef⟩ : ∃ C : Nat → List Int, ∀ i, C i = (B i).labels :=
    ⟨fun i => (B i).labels, fun _ => rfl⟩
  have hClen : ∀ i, i < 5 → (C i).length = 10000 := by
    intro i hi
    rw [hCdef i]
    exact (hlab i hi).1
  have hconv : ∀ i : Nat, ∃ t, i < 5 →
      _convert_images (B i).data = Except.ok t ∧ t.n = 10000 := by
    intro i
    by_cases hi : i < 5
    · exact ⟨_, fun _ => ⟨convert_ok _ 10000 (hlen i hi), rfl⟩⟩
    · exact ⟨⟨0, 0, 0, 0, fun _ _ _ _ => 0⟩, fun h => absurd h hi⟩
  choose T hT using hconv
  have hTok : ∀ i, i < 5 → _convert_images (B i).data = Except.ok (T i) :=
    fun i hi => (hT i hi).1
  have hTn : ∀ i, i < 5 → (T i).n = 10000 := fun i hi => (hT i hi).2
  have hload : ∀ i, i < 5 →
      _load_data disk (train_filename i) = Except.ok (T i, C i) := by
    intro i hi
    rw [hCdef i]
    simp only [_load_data, _unpickle, hdisk i hi, except_bind_ok, hTok i hi]
  have hcls0 : (List.replicate _num_images_train (0 : Int)).length = 50000 := by
    rw [List.length_replicate]
    decide
  have hloop := trainLoop_five disk T C hload hTn hClen
    { n := _num_images_train, h := img_size, w := img_size, c := num_channels
      pix := fun _ _ _ _ => 0 }
    (List.replicate _num_images_train 0) (by rfl) hcls0
  have hclsF_len := setSlice5_length (List.replicate _num_images_train 0) C hcls0 hClen
  have hvalid : ∀ v ∈ setSliceUpd (setSliceUpd (setSliceUpd (setSliceUpd
      (setSliceUpd (List.replicate _num_images_train (0 : Int)) 0 10000 (C 0))
      10000 20000 (C 1)) 20000 30000 (C 2)) 30000 40000 (C 3)) 40000 50000 (C 4),
      -(num_classes : Int) ≤ v ∧ v < (num_classes : Int) := by
    intro v hv
    rcases setSlice5_mem _ C v hv with h | ⟨i, hi, hvi⟩
    · rw [List.eq_of_mem_replicate h]
      exact ⟨by decide, by decide⟩
    · have hr := (hlab i hi).2 v (by rwa [hCdef i] at hvi)
      have hcast : (0 : Int) ≤ (num_classes : Int) := Int.natCast_nonneg num_classes
      exact ⟨by omega, hr.2⟩
  have hohk : _one_hot_encoded (setSliceUpd (setSliceUpd (setSliceUpd (setSliceUpd
      (setSliceUpd (List.replicate _num_images_train 0) 0 10000 (C 0))
      10000 20000 (C 1)) 20000 30000 (C 2)) 30000 40000 (C 3)) 40000 50000 (C 4))
      (some num_classes) =
      Except.ok ((setSliceUpd (setSliceUpd (setSliceUpd (setSliceUpd
      (setSliceUpd (List.replicate _num_images_train 0) 0 10000 (C 0))
      10000 20000 (C 1)) 20000 30000 (C 2)) 30000 40000 (C 3)) 40000 50000 (C 4)).map
        (fun v => npEyeRow num_classes (npWrap num_classes v))) := by
    rw [one_hot_encoded_some]
    exact npEyeTake_ok num_classes _ hvalid
  have hr : List.range _num_files_train = [0, 1, 2, 3, 4] := rfl
  refine ⟨_, _,
    load_training_data_loop_ok disk _ _ _ (by rw [hr]; exact hloop) hohk, by rfl, ?_, _,
    hclsF_len, ?_, hohk⟩
  · intro i hi
    refine ⟨T i, hTok i hi, ?_⟩
    intro k r col ch hk
    exact writeSlice5_pix _ T (by rfl) i hi k r col ch hk
  · intro i k hi hk
    rw [setSlice5_getD _ C hcls0 hClen i hi k hk, hCdef i]

/-- C2 witness: a synthetic disk holding five batches of 10000 all-zero
images with all-zero labels satisfies the hypotheses, and the assembled
training set has the claimed shape. -/
theorem load_training_data_assembles_witness :
    (∀ i, i < 5 →
      (fun _ => Except.ok ⟨List.replicate (10000 * (num_channels * img_size * img_size)) 0,
        List.replicate 10000 0⟩ : Disk)
        (data_path ++ base_folder ++ train_filename i) =
      Except.ok ((fun _ => RawBatch.mk
        (List.replicate (10000 * (num_channels * img_size * img_size)) 0)
        (List.replicate 10000 0)) i)) ∧
    (∀ i, i < 5 →
      ((fun _ => RawBatch.mk
        (List.replicate (10000 * (num_channels * img_size * img_size)) 0)
        (List.replicate 10000 0)) i).data.length = 10000 * (num_channels * img_size * img_size)) ∧
    (∀ i, i < 5 →
      ((fun _ => RawBatch.mk
        (List.replicate (10000 * (num_channels * img_size * img_size)) 0)
        (List.replicate 10000 0)) i).labels.length = 10000 ∧
      ∀ v ∈ ((fun _ => RawBatch.mk
        (List.replicate (10000 * (num_channels * img_size * img_size)) 0)
        (List.replicate 10000 0)) i).labels, 0 ≤ v ∧ v < (num_classes : Int)) ∧
    (∃ imgs oh, load_training_data
        (fun _ => Except.ok ⟨List.replicate (10000 * (num_channels * img_size * img_size)) 0,
        List.replicate 10000 0⟩ : Disk) = Except.ok (imgs, oh) ∧
      imgs.n = 50000 ∧
      (∀ i, i < 5 → ∃ t, _convert_images ((fun _ => RawBatch.mk
        (List.replicate (10000 * (num_channels * img_size * img_size)) 0)
        (List.replicate 10000 0)) i).data = Except.ok t ∧
        ∀ k r col ch, k < 10000 →
          imgs.pix (i * 10000 + k) r col ch = t.pix k r col ch) ∧
      ∃ cls : List Int, cls.length = 50000 ∧
        (∀ i k, i < 5 → k < 10000 →
          cls.getD (i * 10000 + k) 0 = ((fun _ => RawBatch.mk
        (List.replicate (10000 * (num_channels * img_size * img_size)) 0)
        (List.replicate 10000 0)) i).labels.getD k 0) ∧
        _one_hot_encoded cls (some num_classes) = Except.ok oh) := by
  refine ⟨fun i _ => rfl, fun i _ => by simp only [List.length_replicate],
    fun i _ => ⟨by simp only [List.length_replicate],
      fun v hv => by rw [List.eq_of_mem_replicate hv]; exact ⟨by decide, by decide⟩⟩, ?_⟩
  exact load_training_data_assembles
    (fun _ => Except.ok ⟨List.replicate (10000 * (num_channels * img_size * img_size)) 0,
        List.replicate 10000 0⟩ : Disk)
    (fun _ => RawBatch.mk
        (List.replicate (10000 * (num_channels * img_size * img_size)) 0)
        (List.replicate 10000 0))
    (fun i _ => rfl) (fun i _ => by simp only [List.length_replicate])
    (fun i _ => ⟨by simp only [List.length_replicate],
      fun v hv => by rw [List.eq_of_mem_replicate hv]; exact ⟨by decide, by decide⟩⟩)

end CIFAR10
